import Mathlib

/-!
Verification development for gitup (src/gitup.c), a minimal git
clone/pull client.  The definitions below are shallow embeddings of the
functions in src/gitup.c; bytes are modelled as `Nat` values < 256 and
machine `uint32_t` arithmetic is made explicit with `% 4294967296`.
-/

namespace Gitup

/-- Truncation to 2^32, the behaviour of `uint32_t` arithmetic in the source. -/
def w32 (x : Nat) : Nat := x % 4294967296

/-- The 32-bit left rotation, used by SHA-1. -/
def rotl (n x : Nat) : Nat := w32 ((x <<< n) ||| (x >>> (32 - n)))

/-- Big-endian byte serialisation of `n` into `k` bytes. -/
def be_bytes (k n : Nat) : List Nat :=
  match k with
  | 0 => []
  | k + 1 => be_bytes k (n / 256) ++ [n % 256]

/-- Group a byte list into big-endian 32-bit words (SHA-1 message schedule). -/
def bytes_to_words : List Nat → List Nat
  | a :: b :: c :: d :: rest =>
      ((((a * 256 + b) * 256 + c) * 256) + d) :: bytes_to_words rest
  | _ => []

/-- Extend the 16 scheduled words to 80, one word per fuel step. -/
def sha1_expand (ws : List Nat) (fuel : Nat) : List Nat :=
  match fuel with
  | 0 => ws
  | f + 1 =>
      let n := ws.length
      let w := rotl 1 (((ws.getD (n - 3) 0) ^^^ (ws.getD (n - 8) 0)) ^^^
                       ((ws.getD (n - 14) 0) ^^^ (ws.getD (n - 16) 0)))
      sha1_expand (ws ++ [w]) f

/-- The SHA-1 round function for round `t`. -/
def sha1_f (t b c d : Nat) : Nat :=
  if t < 20 then (b &&& c) ||| ((b ^^^ 4294967295) &&& d)
  else if t < 40 then b ^^^ c ^^^ d
  else if t < 60 then (b &&& c) ||| (b &&& d) ||| (c &&& d)
  else b ^^^ c ^^^ d

/-- The SHA-1 round constant for round `t`. -/
def sha1_k (t : Nat) : Nat :=
  if t < 20 then 0x5A827999
  else if t < 40 then 0x6ED9EBA1
  else if t < 60 then 0x8F1BBCDC
  else 0xCA62C1D6

/-- One SHA-1 round: state update from the indexed schedule word. -/
def sha1_round (st : Nat × Nat × Nat × Nat × Nat) (tw : Nat × Nat) :
    Nat × Nat × Nat × Nat × Nat :=
  let (a, b, c, d, e) := st
  let tmp := w32 (rotl 5 a + sha1_f tw.1 b c d + e + sha1_k tw.1 + tw.2)
  (tmp, a, rotl 30 b, c, d)

/-- Process one padded 64-byte block. -/
def sha1_block (h : Nat × Nat × Nat × Nat × Nat) (block : List Nat) :
    Nat × Nat × Nat × Nat × Nat :=
  let ws := sha1_expand (bytes_to_words block) 64
  let (a, b, c, d, e) := ws.enum.foldl sha1_round h
  (w32 (h.1 + a), w32 (h.2.1 + b), w32 (h.2.2.1 + c),
   w32 (h.2.2.2.1 + d), w32 (h.2.2.2.2 + e))

/-- SHA-1 padding: 0x80, zeros to 56 mod 64, then the bit length in 8 BE bytes. -/
def sha1_pad (msg : List Nat) : List Nat :=
  msg ++ [0x80] ++ List.replicate ((119 - msg.length % 64) % 64) 0 ++
    be_bytes 8 (msg.length * 8)

/-- Split a byte list into 64-byte chunks (fuel-bounded). -/
def chunks64 (fuel : Nat) (l : List Nat) : List (List Nat) :=
  match fuel, l with
  | _, [] => []
  | 0, _ => []
  | f + 1, l => l.take 64 :: chunks64 f (l.drop 64)

/-- SHA-1 of a byte sequence, as a 20-byte list.  Models OpenSSL's `SHA1`,
which the source uses for object identity and the pack trailer. -/
def sha1 (msg : List Nat) : List Nat :=
  let padded := sha1_pad msg
  let h := (chunks64 padded.length padded).foldl sha1_block
      (0x67452301, 0xEFCDAB89, 0x98BADCFE, 0x10325476, 0xC3D2E1F0)
  be_bytes 4 h.1 ++ be_bytes 4 h.2.1 ++ be_bytes 4 h.2.2.1 ++
    be_bytes 4 h.2.2.2.1 ++ be_bytes 4 h.2.2.2.2

/-- One lowercase hex digit, as produced by the source's `snprintf "%02x"`. -/
def hex_digit (d : Nat) : Char :=
  if d < 10 then Char.ofNat (48 + d) else Char.ofNat (87 + d)

/-- The character list produced by `legible_sha` (src/gitup.c:188-202):
each byte becomes two lowercase hex digits (`%02x` of the byte cast to
`unsigned char`, hence the `% 256`). -/
def legible_chars : List Nat → List Char
  | [] => []
  | b :: rest => hex_digit (b % 256 / 16) :: hex_digit (b % 256 % 16) :: legible_chars rest

/-- Model of `legible_sha` (src/gitup.c:188-202): 20 raw bytes to a 40-char lowercase
hex string. -/
def legible_sha (bytes : List Nat) : String := String.mk (legible_chars bytes)

/-- The per-character value used by `illegible_sha` (src/gitup.c:211-223):
`c - (c > 58 ? 87 : 48)` computed in C `int` arithmetic, hence `Int`. -/
def hex_char_val (c : Char) : Int :=
  (c.toNat : Int) - (if c.toNat > 58 then 87 else 48)

/-- One output byte of `illegible_sha`: `16 * v(c1) + v(c2)` stored into a
byte, so reduced into the range [0, 256) exactly as the stored bit pattern. -/
def illegible_pair (c1 c2 : Char) : Nat :=
  ((16 * hex_char_val c1 + hex_char_val c2).emod 256).toNat

/-- The byte list produced by `illegible_sha` (src/gitup.c:211-223), two
input characters per output byte. -/
def illegible_bytes : List Char → List Nat
  | c1 :: c2 :: rest => illegible_pair c1 c2 :: illegible_bytes rest
  | _ => []

/-- Model of `illegible_sha` (src/gitup.c:211-223): a 40-char hex string to 20 raw
bytes. -/
def illegible_sha (s : String) : List Nat := illegible_bytes s.data

/-- The `types` table of `calculate_object_sha` (src/gitup.c:273). -/
def type_name (t : Nat) : String :=
  (["", "commit", "tree", "blob", "tag", "", "ofs-delta", "ref-delta"].getD t "")

/-- Byte sequence of an ASCII string. -/
def str_bytes (s : String) : List Nat := s.data.map Char.toNat

/-- The 20 raw SHA-1 bytes of an object: the git header
`"<type-name> <size>\0"` followed by the payload. -/
def object_sha_bytes (buffer : List Nat) (buffer_size : Nat) (t : Nat) : List Nat :=
  sha1 (str_bytes (type_name t) ++ [32] ++ str_bytes (toString buffer_size) ++ [0] ++ buffer)

/-- Model of `calculate_object_sha` (src/gitup.c:268-304): SHA-1 of the git header
`"<type-name> <size>\0"` followed by the payload, rendered as a 40-char hex
string. -/
def calculate_object_sha (buffer : List Nat) (buffer_size : Nat) (t : Nat) : String :=
  legible_sha (object_sha_bytes buffer buffer_size t)

/-- One `struct object_node` (src/gitup.c:57-68).  `buffer_size` and
`data_size` always coincide in the source, so the payload list carries both. -/
structure ObjNode where
  sha : String
  type : Nat
  index : Nat
  index_delta : Nat
  ref_delta_sha : Option String
  pack_offset : Nat
  buffer : List Nat
  deriving Repr, DecidableEq

/-- The object store: the `connection->object` insertion-order array and the
`Tree_Objects` red-black tree (modelled as the list of nodes it holds,
looked up by `sha`). -/
structure Store where
  array : List ObjNode
  tree : List ObjNode
  deriving Repr, DecidableEq

/-- The store before any `store_object` call. -/
def emptyStore : Store := ⟨[], []⟩

/-- Model of `RB_FIND(Tree_Objects, ...)`: lookup by the 40-char `sha` key
(`object_node_compare`, src/gitup.c:119-123). -/
def tree_find (tree : List ObjNode) (sha : String) : Option ObjNode :=
  tree.find? (fun o => o.sha == sha)

/-- Model of `store_object` (src/gitup.c:1046-1091): compute the object's SHA; if an
object with that SHA is already in the tree, do nothing; otherwise append a
new node to the array and, when `type < 6`, also insert it into the tree. -/
def store_object (s : Store) (t : Nat) (buffer : List Nat)
    (pack_offset index_delta : Nat) (ref_delta_sha : Option (List Nat)) : Store :=
  let sha := calculate_object_sha buffer buffer.length t
  match tree_find s.tree sha with
  | some _ => s
  | none =>
      let node : ObjNode :=
        { sha := sha, type := t, index := s.array.length,
          index_delta := index_delta,
          ref_delta_sha := ref_delta_sha.map legible_sha,
          pack_offset := pack_offset, buffer := buffer }
      { array := s.array ++ [node],
        tree := if t < 6 then s.tree ++ [node] else s.tree }

/-- Error outcomes of the embedded functions.  The first four are the names
the specification uses for checks it expects; constructors the code never
produces are kept so their absence can be stated. -/
inductive GError where
  | missingDeltaBase
  | deltaBaseMismatch
  | deltaSizeMismatch
  | invalidDeltaInstruction
  | positionOverflow
  | objectNotFound
  | nullShaCompare
  | symlinkFailed
  | packVersionUnsupported
  | inflateFailure
  | ofsBaseNotFound
  deriving Repr, DecidableEq

instance : Inhabited ObjNode := ⟨⟨"", 0, 0, 0, none, 0, []⟩⟩

instance {ε α : Type} [DecidableEq ε] [DecidableEq α] : DecidableEq (Except ε α) :=
  fun x y =>
    match x, y with
    | .ok a, .ok b =>
        if h : a = b then isTrue (by rw [h]) else isFalse (by intro hc; cases hc; exact h rfl)
    | .error a, .error b =>
        if h : a = b then isTrue (by rw [h]) else isFalse (by intro hc; cases hc; exact h rfl)
    | .ok _, .error _ => isFalse (by intro hc; cases hc)
    | .error _, .ok _ => isFalse (by intro hc; cases hc)

/-- Model of `unpack_variable_length_integer` (src/gitup.c:1255-1264): little-endian
7-bit groups, accumulated with `+=` into a `uint32_t`.  Fuel-bounded; an
out-of-range read yields 0 (the source would read past the buffer). -/
def unpack_varint_loop (data : List Nat) : Nat → Nat → Nat → Nat → Nat × Nat
  | 0, pos, _, acc => (acc, pos)
  | fuel + 1, pos, count, acc =>
      let b := data.getD pos 0 % 256
      let acc := w32 (acc + ((b &&& 0x7F) <<< (7 * count)))
      if b &&& 0x80 ≠ 0 then unpack_varint_loop data fuel (pos + 1) (count + 1) acc
      else (acc, pos + 1)

/-- Decode one pack/delta variable-length integer at `pos`; returns the value
and the position after it. -/
def unpack_variable_length_integer (data : List Nat) (pos : Nat) : Nat × Nat :=
  unpack_varint_loop data (data.length + 1) pos 0 0

/-- First loop of `unpack_delta_integer` (src/gitup.c:1220-1246): number of
set bits among the low four bits of the instruction mask. -/
def udi_read_bytes (bits : Nat) : Nat :=
  (if bits &&& 8 ≠ 0 then 1 else 0) + (if bits &&& 4 ≠ 0 then 1 else 0) +
  (if bits &&& 2 ≠ 0 then 1 else 0) + (if bits &&& 1 ≠ 0 then 1 else 0)

/-- Second loop of `unpack_delta_integer`: for mask bit positions 3,2,1,0, a
set bit consumes the next-from-the-end stream byte into that byte position. -/
def udi_step (data : List Nat) (pos bits : Nat) (st : Nat × Nat) (mask : Nat) :
    Nat × Nat :=
  if bits &&& (1 <<< mask) ≠ 0 then
    (st.1 - 1, w32 (st.2 + ((data.getD (pos + (st.1 - 1)) 0 % 256) <<< (mask * 8))))
  else st

/-- Model of `unpack_delta_integer` (src/gitup.c:1220-1246): per-nibble present-bytes
encoding of delta copy offsets and lengths. -/
def unpack_delta_integer (data : List Nat) (pos bits : Nat) : Nat × Nat :=
  let rb := udi_read_bytes bits
  if rb > 0 then
    let st := [3, 2, 1, 0].foldl (udi_step data pos bits) (rb, 0)
    (st.2, pos + rb)
  else (0, pos)

/-- Model of `memcpy(layer + pos, src, src.length)`: overwrite `layer` at `pos` with
`src`, leaving the length unchanged. -/
def write_bytes : List Nat → Nat → List Nat → List Nat
  | layer, _, [] => layer
  | [], _, _ => []
  | _ :: rest, 0, s :: srest => s :: write_bytes rest 0 srest
  | x :: rest, p + 1, src => x :: write_bytes rest p src

/-- The copy/insert instruction loop of `apply_deltas`
(src/gitup.c:1331-1356).  State: position in the delta payload, output
position `new_position`, and the layer buffer.  A copy reads offset and
length via `unpack_delta_integer` (length 0 means 65536); an instruction
byte without the high bit is an insert of that many literal bytes (byte
0x00 therefore inserts zero bytes).  The single check is
`new_position + length > new_file_size`, which exits with the
position-overflow error; out-of-range reads of the base deliver 0 here
where the source would read out of bounds. -/
def delta_loop (deltaBuf : List Nat) (dataSize : Nat) (merge : List Nat)
    (new_file_size : Nat) :
    Nat → Nat → Nat → List Nat → Except GError (List Nat × Nat)
  | 0, _, new_position, layer => .ok (layer, new_position)
  | fuel + 1, pos, new_position, layer =>
      if pos < dataSize then
        let instruction := deltaBuf.getD pos 0 % 256
        let pos1 := pos + 1
        if instruction &&& 0x80 ≠ 0 then
          let offset_bits := instruction &&& 0x0F
          let length_bits := (instruction &&& 0x70) >>> 4
          let od := unpack_delta_integer deltaBuf pos1 offset_bits
          let ld := unpack_delta_integer deltaBuf od.2 length_bits
          let length := if ld.1 = 0 then 65536 else ld.1
          if w32 (new_position + length) > new_file_size then .error .positionOverflow
          else
            let src := (List.range length).map (fun i => merge.getD (od.1 + i) 0)
            delta_loop deltaBuf dataSize merge new_file_size fuel ld.2
              (w32 (new_position + length)) (write_bytes layer new_position src)
        else
          let length := instruction
          if w32 (new_position + length) > new_file_size then .error .positionOverflow
          else
            let src := (List.range length).map (fun i => deltaBuf.getD (pos1 + i) 0)
            delta_loop deltaBuf dataSize merge new_file_size fuel (pos1 + length)
              (w32 (new_position + length)) (write_bytes layer new_position src)
      else .ok (layer, new_position)

/-- One delta application (src/gitup.c:1313-1370): decode `old_file_size`
and `new_file_size` from the delta payload head, then replay the
instructions into a layer buffer of `new_file_size` bytes.  `old_file_size`
is decoded and then never used, exactly as in the source.  `stale` supplies
the layer buffer's previous contents (the source reuses a growing
`layer_buffer` across deltas without clearing it); the stored object is the
full `new_file_size`-byte layer together with the final `new_position`. -/
def apply_one_delta (base : List Nat) (delta : List Nat) (stale : List Nat) :
    Except GError (List Nat × Nat) :=
  let sr := unpack_variable_length_integer delta 0
  let old_file_size := sr.1
  let tr := unpack_variable_length_integer delta sr.2
  let new_file_size := tr.1
  let layer0 := (List.range new_file_size).map (fun i => stale.getD i 0)
  let _ := old_file_size
  delta_loop delta delta.length base new_file_size delta.length tr.2 0 layer0

/-- The chain walk of `apply_deltas` (src/gitup.c:1293-1296): follow
`index_delta` links while the node is an ofs-delta (type 6).  Any other
type — including a ref-delta (type 7) — ends the walk. -/
def follow_ofs_chain (arr : List ObjNode) : Nat → ObjNode → ObjNode
  | 0, delta => delta
  | fuel + 1, delta =>
      if delta.type = 6 then follow_ofs_chain arr fuel (arr.getD delta.index_delta default)
      else delta

/-- The base lookup of `apply_deltas` (src/gitup.c:1300-1303): after the
chain walk, `lookup.sha = delta->sha` and the object tree is searched by
that key; a miss exits with the missing-delta-base error.  Note the key is
the final node's own content SHA — `ref_delta_sha` is not consulted. -/
def apply_deltas_find_base (s : Store) (o : ObjNode) : Except GError ObjNode :=
  let delta := follow_ofs_chain s.array s.array.length o
  match tree_find s.tree delta.sha with
  | none => .error .missingDeltaBase
  | some base => .ok base

/-- Size-header decode of `unpack_objects` (src/gitup.c:1137-1142): 4 bits
from the first byte, then 7-bit groups while the continuation bit is set. -/
def extract_file_size (resp : List Nat) : Nat → Nat → Nat → Nat → Nat × Nat
  | 0, pos, _, acc => (acc, pos)
  | fuel + 1, pos, stream_bytes, acc =>
      let b := resp.getD pos 0 % 256
      let file_bits := b &&& (if stream_bytes = 0 then 0x0F else 0x7F)
      let acc := w32 (acc + (if stream_bytes = 0 then file_bits
                             else w32 (file_bits <<< (4 + 7 * (stream_bytes - 1)))))
      if b &&& 0x80 ≠ 0 then extract_file_size resp fuel (pos + 1) (stream_bytes + 1) acc
      else (acc, pos + 1)

/-- Ofs-delta distance decode (src/gitup.c:1150-1151):
`offset = (offset << 7) + (byte & 0x7F) + 1` per byte. -/
def ofs_lookup_offset (resp : List Nat) : Nat → Nat → Nat → Nat × Nat
  | 0, pos, acc => (acc, pos)
  | fuel + 1, pos, acc =>
      let b := resp.getD pos 0 % 256
      let acc := (acc <<< 7) + (b &&& 0x7F) + 1
      if b &&& 0x80 ≠ 0 then ofs_lookup_offset resp fuel (pos + 1) acc
      else (acc, pos + 1)

/-- Backward scan of `unpack_objects` (src/gitup.c:1153-1155): indices
`objects-1` down to `1` are compared against the target pack offset; 0 is
the not-found result (index 0 is never examined, as in the source). -/
def ofs_base_scan (arr : List ObjNode) (target : Int) : Nat → Nat
  | 0 => 0
  | i + 1 =>
      if ((arr.getD (i + 1) default).pack_offset : Int) = target then i + 1
      else ofs_base_scan arr target i

/-- Resolve an ofs-delta's base index (src/gitup.c:1146-1159).  The source
leaves `index_delta` at -1 when the array is empty (then indexes with it,
undefined behaviour); that unreachable-in-valid-packs corner is reported as
the not-found error here. -/
def find_ofs_base (arr : List ObjNode) (target : Int) : Except GError Nat :=
  match ofs_base_scan arr target (arr.length - 1) with
  | 0 => .error .ofsBaseNotFound
  | i + 1 => .ok (i + 1)

/-- The entry loop of `unpack_objects` (src/gitup.c:1127-1210), one fuel
unit per declared object.  `inflate` abstracts the zlib stream decoder: it
receives the remaining bytes and returns the inflated payload and the
number of input bytes consumed, or `none` for a broken stream.  The
declared `file_size` is decoded but never compared with the inflated size,
and the 3-bit type code is forwarded to `store_object` unvalidated, both
exactly as in the source. -/
def unpack_loop (inflate : List Nat → Option (List Nat × Nat)) (resp : List Nat) :
    Nat → Nat → Store → Except GError Store
  | 0, _, s => .ok s
  | fuel + 1, pos, s =>
      if pos < resp.length then
        let b := resp.getD pos 0 % 256
        let object_type := (b >>> 4) &&& 0x07
        let pack_offset := pos
        let fs := extract_file_size resp (resp.length + 1) pos 0 0
        let step : Except GError (Nat × Nat × Option (List Nat)) :=
          if object_type = 6 then
            let lo := ofs_lookup_offset resp (resp.length + 1) fs.2 0
            match find_ofs_base s.array ((pack_offset : Int) - (lo.1 : Int) + 1) with
            | .error e => .error e
            | .ok idx => .ok (lo.2, idx, none)
          else if object_type = 7 then
            .ok (fs.2 + 20, 0, some ((List.range 20).map (fun i => resp.getD (fs.2 + i) 0)))
          else .ok (fs.2, 0, none)
        match step with
        | .error e => .error e
        | .ok (pos2, index_delta, ref_delta_sha) =>
            match inflate (resp.drop pos2) with
            | none => .error .inflateFailure
            | some (buf, consumed) =>
                unpack_loop inflate resp fuel (pos2 + consumed)
                  (store_object s object_type buf pack_offset index_delta ref_delta_sha)
      else .ok s

/-- Model of `unpack_objects` (src/gitup.c:1100-1211): check the version byte
(`response[7]`, only the last header byte is examined), read the big-endian
object count from bytes 8..11, then run the entry loop from position 12. -/
def unpack_objects (inflate : List Nat → Option (List Nat × Nat)) (resp : List Nat) :
    Except GError Store :=
  let version := resp.getD 7 0 % 256
  if version ≠ 2 then .error .packVersionUnsupported
  else
    let total := ((resp.getD 8 0 % 256) <<< 24) + ((resp.getD 9 0 % 256) <<< 16) +
                 ((resp.getD 10 0 % 256) <<< 8) + (resp.getD 11 0 % 256)
    unpack_loop inflate resp total 12 emptyStore

/-- The trailing checksum check of `fetch_pack` (src/gitup.c:1020-1025):
the last 20 bytes must equal the SHA-1 of everything before them. -/
def verify_pack_checksum (resp : List Nat) : Bool :=
  sha1 (resp.take (resp.length - 20)) == resp.drop (resp.length - 20)

/-- The facts `fetch_pack` (src/gitup.c:962-1037) and `main`
(src/gitup.c:1852-1868) branch on: whether `-u` gave a pack file and it
exists, whether the manifest (`remote_file_old`) exists, whether a clone
was forced (`-c`, or a missing target directory), and the two tip hashes
(`want` from discovery, `have` from the manifest's first line). -/
structure SessionState where
  use_pack_file : Bool
  pack_file_exists : Bool
  manifest_exists : Bool
  clone_forced : Bool
  want_tip : String
  have_tip : String
  deriving Repr, DecidableEq

/-- src/gitup.c:973-976: the response is preloaded from a saved pack file
exactly when `-u` was given and the file exists. -/
def pack_loaded (s : SessionState) : Bool := s.use_pack_file && s.pack_file_exists

/-- src/gitup.c:985-989: a fetch POST is sent to the server if and only if
no pack data was preloaded.  No field of the session other than the pack
preload — in particular neither tip hash — is consulted. -/
def post_issued (s : SessionState) : Bool := !(pack_loaded s)

/-- src/gitup.c:986-989: when a POST is sent, the incremental pull command
is used exactly when the manifest exists and no clone is forced; otherwise
the clone command is used. -/
def pull_command_used (s : SessionState) : Bool :=
  post_issued s && (s.manifest_exists && !s.clone_forced)

/-- src/gitup.c:1860-1868: `apply_deltas`, `save_objects` and the manifest
rename run only when the pack produced at least one object. -/
def save_phase_runs (objs : List ObjNode) : Bool := objs.length != 0

/-- The manifest on disk after `main` finishes (src/gitup.c:1860-1868,
1544-1556): when objects were unpacked, `save_objects` writes the tip line
followed by the remote-file rows and the `.new` file is renamed over the
old; otherwise the previous manifest (possibly absent) is left untouched. -/
def manifest_after_run (objs : List ObjNode) (oldManifest : Option (List String))
    (tip : String) (rows : List String) : Option (List String) :=
  if save_phase_runs objs then some (tip :: rows) else oldManifest

/-- One `struct file_node` (src/gitup.c:70-75); `sha` is a nullable C
string, `none` models NULL. -/
structure FileNode where
  mode : Nat
  path : String
  sha : Option String
  deriving Repr, DecidableEq

/-- POSIX `S_ISDIR` on the mode parsed from a tree entry. -/
def S_ISDIR (m : Nat) : Bool := m &&& 0o170000 == 0o040000

/-- POSIX `S_ISLNK` on the mode parsed from a tree entry. -/
def S_ISLNK (m : Nat) : Bool := m &&& 0o170000 == 0o120000

/-- Model of `calculate_file_sha` (src/gitup.c:313-327): the local scanner hashes a
regular file as a blob but leaves `sha` NULL for a symlink. -/
def calculate_file_sha (is_link : Bool) (contents : List Nat) : Option String :=
  if is_link then none else some (calculate_object_sha contents contents.length 3)

/-- Model of `RB_FIND` on a file tree keyed by path (`file_node_compare`,
src/gitup.c:112-116). -/
def rf_find (files : List FileNode) (p : String) : Option FileNode :=
  files.find? (fun f => f.path == p)

/-- Insert a new row, or update mode and sha of the row with the same path
(src/gitup.c:1484-1498). -/
def rf_upsert (files : List FileNode) (g : FileNode) : List FileNode :=
  if (rf_find files g.path).isSome then
    files.map (fun f => if f.path == g.path then g else f)
  else files ++ [g]

/-- What `save_tree` did with one tree entry. -/
inductive FAction where
  | recursed
  | skipped
  | madeSymlink
  | wroteFile
  deriving Repr, DecidableEq

/-- The per-entry body of `save_tree` (src/gitup.c:1440-1501).  A directory
entry recurses (rows for its contents are added by the recursive calls,
again through this function).  Otherwise the blob is looked up by hash
(miss exits), the local scan result decides the skip
(`strncmp(found_object->sha, found_file->sha, 40)` — a NULL scanner sha,
which is what the scanner records for every symlink, is dereferenced), a
symlink entry calls `symlink(2)` (which fails if the path exists) and
records nothing, and only the remaining branch writes the file and
inserts/updates a `Remote_Files` row. -/
def save_tree_entry (tree : List ObjNode) (local_files : List FileNode)
    (path_exists : String → Bool) (remote_files : List FileNode)
    (mode : Nat) (full_path : String) (sha : String) :
    Except GError (List FileNode × FAction) :=
  if S_ISDIR mode then .ok (remote_files, .recursed)
  else
    match tree_find tree sha with
    | none => .error .objectNotFound
    | some found_object =>
        let skip : Except GError Bool :=
          match rf_find local_files full_path with
          | none => .ok false
          | some f =>
              match f.sha with
              | none => .error .nullShaCompare
              | some fsha => .ok (found_object.sha == fsha)
        match skip with
        | .error e => .error e
        | .ok true => .ok (remote_files, .skipped)
        | .ok false =>
            if S_ISLNK mode then
              if path_exists full_path then .error .symlinkFailed
              else .ok (remote_files, .madeSymlink)
            else
              .ok (rf_upsert remote_files ⟨mode, full_path, some found_object.sha⟩,
                   .wroteFile)

/-- A pending `store_object` call, for reasoning about arbitrary insertion
sequences. -/
structure StoreReq where
  type : Nat
  buffer : List Nat
  pack_offset : Nat
  index_delta : Nat
  ref_delta_sha : Option (List Nat)
  deriving Repr, DecidableEq

/-- Run a sequence of `store_object` calls from the empty store, as
`unpack_objects` and `apply_deltas` do. -/
def run_store (reqs : List StoreReq) : Store :=
  reqs.foldl
    (fun s r => store_object s r.type r.buffer r.pack_offset r.index_delta r.ref_delta_sha)
    emptyStore

/-! Concrete inputs used by the counterexamples and witnesses below. -/

/-- The sixteen characters `legible_sha` can emit. -/
def lower_hex_chars : List Char := "0123456789abcdef".data

/-- A 40-char uppercase hex string. -/
def upperA40 : String := String.mk (List.replicate 40 'A')

/-- Payload of the demo blob: `"AAAA"`. -/
def demoBlobBytes : List Nat := [65, 65, 65, 65]

/-- Payload of the demo ref-delta (source size 4, target size 4, no
instructions; its content does not matter for the base lookup). -/
def demoRefDeltaPayload : List Nat := [4, 4]

/-- Store state after `unpack_objects` has stored the demo blob and a
ref-delta whose 20-byte base hash is exactly the blob's hash. -/
def c2Store : Store :=
  store_object (store_object emptyStore 3 demoBlobBytes 12 0 none)
    7 demoRefDeltaPayload 40 0 (some (object_sha_bytes demoBlobBytes 4 3))

/-- The ref-delta node inside `c2Store` (array index 1). -/
def c2RefDeltaNode : ObjNode := c2Store.array.getD 1 default

/-- The 12-byte header of a version-2 pack declaring zero objects. -/
def pack0core : List Nat := [80, 65, 67, 75, 0, 0, 0, 2, 0, 0, 0, 0]

/-- The zero-object pack with its valid trailing SHA-1. -/
def pack0 : List Nat := pack0core ++ sha1 pack0core

/-- An inflate oracle that is never consulted. -/
def noInflate : List Nat → Option (List Nat × Nat) := fun _ => none

/-- An inflate oracle producing an empty payload and consuming nothing. -/
def emptyInflate : List Nat → Option (List Nat × Nat) := fun _ => some ([], 0)

/-- Demo tip hash for the manifest scenarios. -/
def c3Tip : String := "0123456789abcdef0123456789abcdef01234567"

/-- Pack header + one entry whose type nibble is the reserved code 5
(byte 0x50: type 5, size 0). -/
def pack5core : List Nat := [80, 65, 67, 75, 0, 0, 0, 2, 0, 0, 0, 1, 0x50]

/-- The reserved-type pack with its valid trailing SHA-1. -/
def pack5 : List Nat := pack5core ++ sha1 pack5core

/-- The node `store_object` builds for a type-5 entry with empty payload. -/
def type5Node : ObjNode :=
  { sha := calculate_object_sha [] 0 5, type := 5, index := 0, index_delta := 0,
    ref_delta_sha := none, pack_offset := 12, buffer := [] }

/-- The store `unpack_objects` produces for `pack5`. -/
def store5 : Store := { array := [type5Node], tree := [type5Node] }

/-- The node `store_object` builds for a demo blob `"A"`. -/
def demoANode : ObjNode :=
  { sha := calculate_object_sha [65] 1 3, type := 3, index := 0, index_delta := 0,
    ref_delta_sha := none, pack_offset := 0, buffer := [65] }

/-- Store containing just the demo blob `"A"`. -/
def s1demo : Store := store_object emptyStore 3 [65] 0 0 none

/-- A pull-session state whose advertised tip equals the manifest tip. -/
def c1State : SessionState :=
  { use_pack_file := false, pack_file_exists := false, manifest_exists := true,
    clone_forced := false,
    want_tip := "da39a3ee5e6b4b0d3255bfef95601890afd80709",
    have_tip := "da39a3ee5e6b4b0d3255bfef95601890afd80709" }

/-- Another equal-tip pull-session state, for the witness. -/
def c1WitnessState : SessionState :=
  { use_pack_file := false, pack_file_exists := true, manifest_exists := true,
    clone_forced := false, want_tip := c3Tip, have_tip := c3Tip }

/-- Payload of the symlink-target blob (`"hello.txt"`). -/
def linkBlob : List Nat := str_bytes "hello.txt"

/-- Hash of the symlink-target blob. -/
def linkSha : String := calculate_object_sha linkBlob linkBlob.length 3

/-- Object tree containing the symlink-target blob. -/
def c10Tree : List ObjNode := (store_object emptyStore 3 linkBlob 12 0 none).tree

/-- Local scan state of a worktree where `dir/link` already exists as a
symlink: `find_local_tree` records it with the NULL sha that
`calculate_file_sha` returns for links. -/
def c10Local : List FileNode := [⟨0o120000, "dir/link", calculate_file_sha true []⟩]

/-- Local scan state where `dir/link` exists as a regular file with a
different blob hash. -/
def c10LocalFile : List FileNode := [⟨0o100644, "dir/link", some (calculate_object_sha [66] 1 3)⟩]

set_option maxRecDepth 100000

/-! Helper lemmas (shared). -/

/-- Decoding the two hex digits of a byte gives the byte back. -/
theorem pair_of_byte : ∀ b, b < 256 →
    illegible_pair (hex_digit (b % 256 / 16)) (hex_digit (b % 256 % 16)) = b := by
  decide

/-- Decoding inverts encoding: `illegible_bytes` inverts `legible_chars` on byte lists. -/
theorem legible_illegible_aux :
    ∀ bytes : List Nat, (∀ b ∈ bytes, b < 256) →
      illegible_bytes (legible_chars bytes) = bytes := by
  intro bytes
  induction bytes with
  | nil => intro _; rfl
  | cons b rest ih =>
      intro h
      have hb : b < 256 := h b (by simp)
      have hrest := ih (fun x hx => h x (by simp [hx]))
      simp only [legible_chars, illegible_bytes, hrest, List.cons.injEq, and_true]
      exact pair_of_byte b hb

/-- Encoding the byte decoded from two lowercase hex digits gives the digits
back. -/
theorem pair_of_chars : ∀ c1 ∈ lower_hex_chars, ∀ c2 ∈ lower_hex_chars,
    hex_digit (illegible_pair c1 c2 % 256 / 16) = c1 ∧
    hex_digit (illegible_pair c1 c2 % 256 % 16) = c2 := by
  decide

/-- Encoding inverts decoding: `legible_chars` inverts `illegible_bytes` on even-length lowercase hex
character lists. -/
theorem illegible_legible_aux :
    ∀ l : List Char, l.length % 2 = 0 → (∀ c ∈ l, c ∈ lower_hex_chars) →
      legible_chars (illegible_bytes l) = l
  | [], _, _ => rfl
  | [_], h, _ => by simp at h
  | c1 :: c2 :: rest, h, hall => by
      have hr := illegible_legible_aux rest
        (by simp only [List.length_cons] at h; omega)
        (fun c hc => hall c (by simp [hc]))
      have hp := pair_of_chars c1 (hall c1 (by simp)) c2 (hall c2 (by simp))
      simp only [illegible_bytes, legible_chars, hr, List.cons.injEq, and_true]
      exact hp

/-- Writing `memcpy`-style into a list never changes its length. -/
theorem write_bytes_length (layer : List Nat) :
    ∀ p src, (write_bytes layer p src).length = layer.length := by
  induction layer with
  | nil =>
      intro p src
      cases src <;> simp [write_bytes]
  | cons x rest ih =>
      intro p src
      cases src with
      | nil => simp [write_bytes]
      | cons s srest =>
          cases p with
          | zero => simp [write_bytes, ih]
          | succ q => simp [write_bytes, ih]

/-- Copying zero bytes is the identity. -/
theorem write_bytes_empty (layer : List Nat) (p : Nat) : write_bytes layer p [] = layer := by
  simp [write_bytes]

/-- The instruction loop never changes the layer buffer's length. -/
theorem delta_loop_ok_length (deltaBuf : List Nat) (dataSize : Nat) (merge : List Nat)
    (nfs : Nat) :
    ∀ fuel pos np layer out rp,
      delta_loop deltaBuf dataSize merge nfs fuel pos np layer = .ok (out, rp) →
      out.length = layer.length := by
  intro fuel
  induction fuel with
  | zero =>
      intro pos np layer out rp h
      simp only [delta_loop, Except.ok.injEq, Prod.mk.injEq] at h
      rw [← h.1]
  | succ f ih =>
      intro pos np layer out rp h
      simp only [delta_loop] at h
      split at h
      · split at h
        · split at h
          · split at h
            · simp at h
            · exact (ih _ _ _ _ _ h).trans (write_bytes_length layer np _)
          · split at h
            · simp at h
            · exact (ih _ _ _ _ _ h).trans (write_bytes_length layer np _)
        · split at h
          · simp at h
          · exact (ih _ _ _ _ _ h).trans (write_bytes_length layer np _)
      · simp only [Except.ok.injEq, Prod.mk.injEq] at h
        rw [← h.1]

/-- The only error the instruction loop can produce is the position
overflow. -/
theorem delta_loop_error_overflow (deltaBuf : List Nat) (dataSize : Nat) (merge : List Nat)
    (nfs : Nat) :
    ∀ fuel pos np layer e,
      delta_loop deltaBuf dataSize merge nfs fuel pos np layer = .error e →
      e = GError.positionOverflow := by
  intro fuel
  induction fuel with
  | zero =>
      intro pos np layer e h
      simp only [delta_loop] at h
      exact Except.noConfusion h
  | succ f ih =>
      intro pos np layer e h
      simp only [delta_loop] at h
      split at h
      · split at h
        · split at h
          · split at h
            · simp only [Except.error.injEq] at h
              exact h.symm
            · exact ih _ _ _ _ h
          · split at h
            · simp only [Except.error.injEq] at h
              exact h.symm
            · exact ih _ _ _ _ h
        · split at h
          · simp only [Except.error.injEq] at h
            exact h.symm
          · exact ih _ _ _ _ h
      · exact Except.noConfusion h

/-! Claim theorems. -/

/-- C7 (amended): the hex codec round-trips in both directions on the
inputs the program produces — `illegible_sha (legible_sha b) = b` for every
20-byte array, and `legible_sha (illegible_sha s) = s` for every 40-char
LOWERCASE hex string; uppercase digits are excluded because
`illegible_sha` subtracts the lowercase offset 87 from every character
above 58. -/
theorem c7_hex_roundtrip :
    (∀ bytes : List Nat, bytes.length = 20 → (∀ b ∈ bytes, b < 256) →
        illegible_sha (legible_sha bytes) = bytes) ∧
    (∀ s : String, s.length = 40 → (∀ c ∈ s.data, c ∈ lower_hex_chars) →
        legible_sha (illegible_sha s) = s) := by
  constructor
  · intro bytes _ hlt
    exact legible_illegible_aux bytes hlt
  · intro s hlen hall
    have hd : s.data.length % 2 = 0 := by
      have : s.data.length = 40 := hlen
      omega
    show String.mk (legible_chars (illegible_bytes s.data)) = s
    rw [illegible_legible_aux s.data hd hall]

/-- C7 witness: the round trips evaluated at a concrete 20-byte array and a
concrete 40-char lowercase hex string. -/
theorem c7_hex_roundtrip_witness :
    illegible_sha (legible_sha (List.replicate 20 171)) = List.replicate 20 171 ∧
    legible_sha (illegible_sha "aaaaaaaaaaaaaaaaaaaaaaaaaaaaaaaaaaaaaaaa") =
      "aaaaaaaaaaaaaaaaaaaaaaaaaaaaaaaaaaaaaaaa" :=
  ⟨c7_hex_roundtrip.1 (List.replicate 20 171) (by decide) (by decide),
   c7_hex_roundtrip.2 "aaaaaaaaaaaaaaaaaaaaaaaaaaaaaaaaaaaaaaaa" (by decide) (by decide)⟩

/-- C7 counterexample: on the 40-char uppercase hex string `"AA…A"` (whose
lower-casing is the 40-char `"aa…a"`), `hex_encode(hex_decode(s))` is
`"8a8a…"` — neither `s` lower-cased nor `s` — because uppercase digits are
decoded with the lowercase offset 87, so the claimed round trip for
upper-case digit strings fails. -/
theorem c7_uppercase_counterexample :
    legible_sha (illegible_sha upperA40) ≠ String.mk (List.replicate 40 'a') ∧
    legible_sha (illegible_sha upperA40) ≠ upperA40 ∧
    legible_sha (illegible_sha upperA40) =
      "8a8a8a8a8a8a8a8a8a8a8a8a8a8a8a8a8a8a8a8a" := by decide

/-- C8 (confirmed): `store_object` is idempotent — when the SHA computed
for the incoming buffer is already in the object tree, the store is
returned unchanged: no array append, no tree insertion. -/
theorem c8_store_idempotent (s : Store) (t : Nat) (buffer : List Nat)
    (po idl : Nat) (rds : Option (List Nat))
    (h : (tree_find s.tree (calculate_object_sha buffer buffer.length t)).isSome = true) :
    store_object s t buffer po idl rds = s := by
  obtain ⟨o, ho⟩ : ∃ o, tree_find s.tree (calculate_object_sha buffer buffer.length t) = some o := by
    cases hf : tree_find s.tree (calculate_object_sha buffer buffer.length t) with
    | none => rw [hf] at h; simp at h
    | some o => exact ⟨o, rfl⟩
  simp only [store_object, ho]

/-- C8 witness: re-inserting the blob `"A"` (even with different pack
offset and delta index) leaves the one-object store unchanged. -/
theorem c8_store_idempotent_witness :
    (tree_find s1demo.tree (calculate_object_sha [65] 1 3)).isSome = true ∧
    store_object s1demo 3 [65] 5 7 none = s1demo :=
  ⟨by decide, c8_store_idempotent s1demo 3 [65] 5 7 none (by decide)⟩

/-- C4 (amended): whenever delta application succeeds, the stored buffer
has exactly `target_size` bytes (the second varlen header value) — but not
because the instruction stream is checked: overshoot aborts mid-stream
with the position-overflow error, while a stream producing fewer bytes is
accepted and the tail of the buffer keeps the stale layer contents. -/
theorem c4_stored_size_is_target (base delta stale : List Nat) (out : List Nat) (np : Nat)
    (h : apply_one_delta base delta stale = .ok (out, np)) :
    out.length =
      (unpack_variable_length_integer delta (unpack_variable_length_integer delta 0).2).1 := by
  simp only [apply_one_delta] at h
  have hlen := delta_loop_ok_length delta delta.length base _ _ _ _ _ _ _ h
  simpa using hlen

/-- C4 witness: a delta with `target_size = 2` whose instructions produce
only one byte still succeeds; the stored buffer has 2 bytes, the second
being the stale layer byte 9. -/
theorem c4_stored_size_is_target_witness :
    apply_one_delta [] [0, 2, 1, 65] [7, 9] = .ok ([65, 9], 1) ∧
    ([65, 9] : List Nat).length =
      (unpack_variable_length_integer [0, 2, 1, 65]
        (unpack_variable_length_integer [0, 2, 1, 65] 0).2).1 :=
  ⟨by decide, c4_stored_size_is_target [] [0, 2, 1, 65] [7, 9] [65, 9] 1 (by decide)⟩

/-- C4 counterexample: `target_size` is 2 but the instruction stream
produces a single byte (`new_position` ends at 1); the resolver returns
success instead of the claimed `DeltaSizeMismatch`. -/
theorem c4_shortfall_accepted_counterexample :
    apply_one_delta [] [0, 2, 3, 65, 66, 67] [7, 9, 11] ≠
        Except.error GError.deltaSizeMismatch ∧
    apply_one_delta [] [0, 2, 1, 66] [7, 9] = .ok ([66, 9], 1) ∧
    (unpack_variable_length_integer [0, 2, 1, 66] 1).1 = 2 ∧ (1 : Nat) ≠ 2 := by decide

/-- C5 (amended): the decoded `source_size` is never compared with the
base's length — delta application can only fail with the position-overflow
error, never with a `DeltaBaseMismatch`. -/
theorem c5_only_overflow_error (base delta stale : List Nat) (e : GError)
    (h : apply_one_delta base delta stale = .error e) :
    e = GError.positionOverflow := by
  simp only [apply_one_delta] at h
  exact delta_loop_error_overflow delta delta.length base _ _ _ _ _ _ h

/-- C5 witness: the one failing shape, an insert past `target_size`,
really is the position-overflow error. -/
theorem c5_only_overflow_error_witness :
    apply_one_delta [] [0, 0, 1, 65] [] = Except.error GError.positionOverflow ∧
    GError.positionOverflow = GError.positionOverflow :=
  ⟨by decide, c5_only_overflow_error [] [0, 0, 1, 65] [] GError.positionOverflow (by decide)⟩

/-- C5 counterexample: a delta whose `source_size` header value (5) differs
from the base payload length (2) is applied without any error, instead of
the claimed `DeltaBaseMismatch` before the instructions run. -/
theorem c5_source_size_ignored_counterexample :
    apply_one_delta [65, 66] [5, 1, 1, 88] [0] = .ok ([88], 1) ∧
    (unpack_variable_length_integer [5, 1, 1, 88] 0).1 = 5 ∧
    ([65, 66] : List Nat).length = 2 ∧ (5 : Nat) ≠ 2 := by decide

/-- C6 (amended): a 0x00 instruction byte is not rejected — it falls into
the insert branch as a zero-length insert, consuming exactly the one
instruction byte and appending nothing. -/
theorem c6_zero_byte_is_empty_insert (deltaBuf : List Nat) (dataSize : Nat)
    (merge : List Nat) (nfs fuel pos np : Nat) (layer : List Nat)
    (h0 : deltaBuf.getD pos 0 % 256 = 0) (hpos : pos < dataSize)
    (hnp : np ≤ nfs) (hw : np < 4294967296) :
    delta_loop deltaBuf dataSize merge nfs (fuel + 1) pos np layer =
      delta_loop deltaBuf dataSize merge nfs fuel (pos + 1) np layer := by
  have hno : ¬ (nfs < np) := by omega
  simp only [delta_loop, h0, hpos, if_true, Nat.add_zero, List.range_zero,
    List.map_nil, write_bytes_empty, w32, Nat.mod_eq_of_lt hw, gt_iff_lt,
    hno, if_false, Nat.zero_and, ne_eq, not_true_eq_false]

/-- C6 witness: the zero-instruction step evaluated at a one-byte delta
stream. -/
theorem c6_zero_byte_is_empty_insert_witness :
    ([0] : List Nat).getD 0 0 % 256 = 0 ∧ 0 < 1 ∧ (0 : Nat) ≤ 0 ∧
    (0 : Nat) < 4294967296 ∧
    delta_loop [0] 1 [] 0 1 0 0 [] = delta_loop [0] 1 [] 0 0 1 0 [] :=
  ⟨by decide, by decide, by decide, by decide,
   c6_zero_byte_is_empty_insert [0] 1 [] 0 0 0 0 [] (by decide) (by decide)
     (by decide) (by decide)⟩

/-- C6 counterexample: a delta whose first instruction byte is 0x00 is
applied successfully (the byte acts as a zero-length insert), instead of
the claimed `InvalidDeltaInstruction` rejection. -/
theorem c6_zero_byte_accepted_counterexample :
    apply_one_delta [] [0, 1, 0, 1, 65] [0] = .ok ([65], 1) ∧
    ([0, 1, 0, 1, 65] : List Nat).getD 2 0 = 0 ∧
    apply_one_delta [] [0, 1, 0, 1, 65] [0] ≠
      Except.error GError.invalidDeltaInstruction := by decide

/-- C2 (the bug, evaluated): a store holding the blob `"AAAA"` and a
ref-delta whose 20-byte `ref_delta_sha` is exactly that blob's hash.  The
base IS present in the tree under its hash, yet the resolver's lookup —
which uses the ref-delta's own content SHA, not `ref_delta_sha` — fails
with the missing-delta-base error. -/
theorem c2_ref_delta_lookup_bug :
    c2RefDeltaNode.type = 7 ∧
    c2RefDeltaNode.ref_delta_sha = some (calculate_object_sha demoBlobBytes 4 3) ∧
    (tree_find c2Store.tree (calculate_object_sha demoBlobBytes 4 3)).isSome = true ∧
    c2RefDeltaNode.sha ≠ calculate_object_sha demoBlobBytes 4 3 ∧
    apply_deltas_find_base c2Store c2RefDeltaNode =
      Except.error GError.missingDeltaBase := by decide

/-- C1 (amended): the advertised tip is never compared with the manifest
tip — in a pull session that is not reusing a saved pack file, the fetch
POST is issued (with the pull command) even when the tips are equal; the
worktree and manifest stay untouched only via the zero-object gate of the
save phase. -/
theorem c1_pull_always_posts (s : SessionState)
    (hm : s.manifest_exists = true) (hc : s.clone_forced = false)
    (hu : s.use_pack_file = false) (heq : s.want_tip = s.have_tip) :
    post_issued s = true ∧ pull_command_used s = true ∧
    (∀ oldM tip rows, manifest_after_run [] oldM tip rows = oldM) := by
  refine ⟨?_, ?_, fun _ _ _ => rfl⟩
  · simp [post_issued, pack_loaded, hu]
  · simp [pull_command_used, post_issued, pack_loaded, hu, hm, hc]

/-- C1 witness: the amended behaviour at a concrete equal-tip pull
session. -/
theorem c1_pull_always_posts_witness :
    (c1WitnessState.manifest_exists = true ∧ c1WitnessState.clone_forced = false ∧
     c1WitnessState.use_pack_file = false ∧
     c1WitnessState.want_tip = c1WitnessState.have_tip) ∧
    (post_issued c1WitnessState = true ∧ pull_command_used c1WitnessState = true ∧
     (∀ oldM tip rows, manifest_after_run [] oldM tip rows = oldM)) :=
  ⟨⟨by decide, by decide, by decide, by decide⟩,
   c1_pull_always_posts c1WitnessState (by decide) (by decide) (by decide) (by decide)⟩

/-- C1 counterexample: a pull session (manifest exists, no forced clone, no
saved pack) whose advertised tip equals the manifest tip still issues the
fetch POST, contradicting the claimed no-POST exit. -/
theorem c1_tip_comparison_absent_counterexample :
    c1State.manifest_exists = true ∧ c1State.clone_forced = false ∧
    c1State.use_pack_file = false ∧ c1State.want_tip = c1State.have_tip ∧
    post_issued c1State = true ∧ pull_command_used c1State = true := by decide

/-- C3 (amended): a pack declaring zero objects (version byte 2, count
bytes zero) is accepted by `unpack_objects` with an empty store; but then
the save phase — `save_objects` and the manifest rename — is skipped, so no
file is written and the previous manifest (absent after a fresh clone) is
left exactly as it was, rather than a manifest holding only the tip line. -/
theorem c3_zero_object_pack (inflate : List Nat → Option (List Nat × Nat))
    (resp : List Nat) (hv : resp.getD 7 0 % 256 = 2)
    (h8 : resp.getD 8 0 % 256 = 0) (h9 : resp.getD 9 0 % 256 = 0)
    (h10 : resp.getD 10 0 % 256 = 0) (h11 : resp.getD 11 0 % 256 = 0) :
    unpack_objects inflate resp = .ok emptyStore ∧
    save_phase_runs emptyStore.array = false ∧
    (∀ oldM tip rows, manifest_after_run emptyStore.array oldM tip rows = oldM) := by
  refine ⟨?_, rfl, fun _ _ _ => rfl⟩
  simp only [unpack_objects, hv, h8, h9, h10, h11, ne_eq, not_true_eq_false,
    if_false, Nat.zero_shiftLeft, Nat.add_zero, Nat.zero_add, unpack_loop]

/-- C3 witness: the amended behaviour at the concrete zero-object pack
with its valid trailing SHA-1. -/
theorem c3_zero_object_pack_witness :
    (pack0.getD 7 0 % 256 = 2 ∧ pack0.getD 8 0 % 256 = 0 ∧
     pack0.getD 9 0 % 256 = 0 ∧ pack0.getD 10 0 % 256 = 0 ∧
     pack0.getD 11 0 % 256 = 0) ∧
    (unpack_objects emptyInflate pack0 = .ok emptyStore ∧
     save_phase_runs emptyStore.array = false ∧
     (∀ oldM tip rows, manifest_after_run emptyStore.array oldM tip rows = oldM)) :=
  ⟨⟨by decide, by decide, by decide, by decide, by decide⟩,
   c3_zero_object_pack emptyInflate pack0 (by decide) (by decide) (by decide)
     (by decide) (by decide)⟩

/-- C3 counterexample: the zero-object pack with valid magic, version 2 and
valid trailing SHA-1 is accepted and the run succeeds with nothing written,
but no manifest is persisted at all — after a fresh clone the manifest is
absent, not a one-line file with the tip. -/
theorem c3_no_manifest_counterexample :
    verify_pack_checksum pack0 = true ∧
    unpack_objects noInflate pack0 = .ok emptyStore ∧
    save_phase_runs emptyStore.array = false ∧
    manifest_after_run emptyStore.array none c3Tip [] = none ∧
    manifest_after_run emptyStore.array none c3Tip [] ≠ some [c3Tip] := by decide

/-- A node in the tree after an insertion was in the tree before, or is the
freshly inserted node, whose type is the inserted type and is below 6. -/
theorem store_object_tree_mem (s : Store) (t : Nat) (buffer : List Nat)
    (po idl : Nat) (rds : Option (List Nat)) (o : ObjNode)
    (h : o ∈ (store_object s t buffer po idl rds).tree) :
    o ∈ s.tree ∨ (o.type = t ∧ t < 6) := by
  simp only [store_object] at h
  split at h
  · exact Or.inl h
  · split at h
    · next hlt =>
        rcases List.mem_append.1 h with h1 | h2
        · exact Or.inl h1
        · simp only [List.mem_singleton] at h2
          subst h2
          exact Or.inr ⟨rfl, hlt⟩
    · exact Or.inl h

/-- Folding `store_object` calls preserves "every tree node has type < 6". -/
theorem store_fold_tree_lt (reqs : List StoreReq) :
    ∀ s : Store, (∀ o ∈ s.tree, o.type < 6) →
      ∀ o ∈ (reqs.foldl
          (fun s r => store_object s r.type r.buffer r.pack_offset r.index_delta r.ref_delta_sha)
          s).tree,
        o.type < 6 := by
  induction reqs with
  | nil => intro s hs; simpa using hs
  | cons r rest ih =>
      intro s hs
      simp only [List.foldl_cons]
      apply ih
      intro o ho
      rcases store_object_tree_mem s r.type r.buffer r.pack_offset r.index_delta
          r.ref_delta_sha o ho with h1 | ⟨he, hlt⟩
      · exact hs o h1
      · rw [he]; exact hlt

/-- C9 (amended): after any sequence of `store_object` insertions — which
covers both the pack reader and the delta resolver — no by-hash lookup can
yield an ofs-delta or ref-delta object: only objects of type < 6 are ever
indexed by hash.  (The lookup result need not be one of the four concrete
types, though: reserved type codes 0 and 5 pass through unvalidated.) -/
theorem c9_no_deltas_by_hash (reqs : List StoreReq) (sha : String) (o : ObjNode)
    (h : tree_find (run_store reqs).tree sha = some o) :
    o.type ≠ 6 ∧ o.type ≠ 7 := by
  have hmem : o ∈ (run_store reqs).tree := List.mem_of_find?_eq_some h
  have hlt := store_fold_tree_lt reqs emptyStore
    (by intro o ho; simp [emptyStore] at ho) o (by simpa [run_store] using hmem)
  exact ⟨by omega, by omega⟩

/-- C9 witness: after storing the blob `"A"`, the by-hash lookup yields it
and it is not a delta. -/
theorem c9_no_deltas_by_hash_witness :
    tree_find (run_store [⟨3, [65], 0, 0, none⟩]).tree
      (calculate_object_sha [65] 1 3) = some demoANode ∧
    (demoANode.type ≠ 6 ∧ demoANode.type ≠ 7) :=
  ⟨by decide,
   c9_no_deltas_by_hash [⟨3, [65], 0, 0, none⟩] (calculate_object_sha [65] 1 3)
     demoANode (by decide)⟩

/-- C9 counterexample: a version-2 pack (valid trailing SHA-1) with one
entry whose type nibble is the reserved code 5 is unpacked without error,
and the stored object is addressable by hash with type 5 — not one of the
four concrete types commit/tree/blob/tag. -/
theorem c9_reserved_type_counterexample :
    verify_pack_checksum pack5 = true ∧
    unpack_objects emptyInflate pack5 = .ok store5 ∧
    tree_find store5.tree (calculate_object_sha [] 0 5) = some type5Node ∧
    type5Node.type = 5 ∧
    ¬(type5Node.type = 1 ∨ type5Node.type = 2 ∨ type5Node.type = 3 ∨
      type5Node.type = 4) := by decide

/-- Rows surviving `rf_upsert` were already present or are the inserted
row. -/
theorem rf_upsert_mem (files : List FileNode) (g f : FileNode)
    (h : f ∈ rf_upsert files g) : f ∈ files ∨ f = g := by
  simp only [rf_upsert] at h
  split at h
  · rcases List.mem_map.1 h with ⟨a, ha, hfa⟩
    by_cases hp : (a.path == g.path) = true
    · rw [hp] at hfa
      simp only [if_true] at hfa
      exact Or.inr hfa.symm
    · rw [Bool.not_eq_true] at hp
      rw [hp] at hfa
      simp only [Bool.false_eq_true, if_false] at hfa
      rw [← hfa]
      exact Or.inl ha
  · rcases List.mem_append.1 h with h1 | h2
    · exact Or.inl h1
    · simp only [List.mem_singleton] at h2
      exact Or.inr h2

/-- C10 (amended): the walker records manifest rows only for tree entries
that are neither directories nor symlinks — a symlink entry leaves the row
set untouched.  (Symlinks are therefore never skipped via the manifest, but
they are not "rewritten on each run" either: see the counterexample.) -/
theorem c10_rows_never_dir_or_link (tree : List ObjNode) (local_files : List FileNode)
    (pe : String → Bool) (remote_files : List FileNode) (mode : Nat)
    (fp sha : String) (rf2 : List FileNode) (act : FAction)
    (h : save_tree_entry tree local_files pe remote_files mode fp sha = .ok (rf2, act)) :
    (∀ f ∈ rf2, f ∈ remote_files ∨ (S_ISDIR f.mode = false ∧ S_ISLNK f.mode = false)) ∧
    (S_ISLNK mode = true → rf2 = remote_files) := by
  simp only [save_tree_entry] at h
  by_cases hdir : S_ISDIR mode = true
  · rw [if_pos hdir] at h
    simp only [Except.ok.injEq, Prod.mk.injEq] at h
    obtain ⟨h1, _⟩ := h
    subst h1
    exact ⟨fun f hf => Or.inl hf, fun _ => rfl⟩
  · rw [if_neg hdir] at h
    rw [Bool.not_eq_true] at hdir
    cases hobj : tree_find tree sha with
    | none => rw [hobj] at h; exact Except.noConfusion h
    | some fo =>
        rw [hobj] at h
        dsimp only at h
        cases hskip : (match rf_find local_files fp with
          | none => Except.ok false
          | some f =>
              match f.sha with
              | none => Except.error GError.nullShaCompare
              | some fsha => Except.ok (fo.sha == fsha) : Except GError Bool) with
        | error e => rw [hskip] at h; exact Except.noConfusion h
        | ok b =>
            rw [hskip] at h
            cases b with
            | true =>
                simp only [Except.ok.injEq, Prod.mk.injEq] at h
                obtain ⟨h1, _⟩ := h
                subst h1
                exact ⟨fun f hf => Or.inl hf, fun _ => rfl⟩
            | false =>
                by_cases hlnk : S_ISLNK mode = true
                · rw [if_pos hlnk] at h
                  by_cases hpe : pe fp = true
                  · rw [if_pos hpe] at h; exact Except.noConfusion h
                  · rw [if_neg hpe] at h
                    simp only [Except.ok.injEq, Prod.mk.injEq] at h
                    obtain ⟨h1, _⟩ := h
                    subst h1
                    exact ⟨fun f hf => Or.inl hf, fun _ => rfl⟩
                · rw [if_neg hlnk] at h
                  rw [Bool.not_eq_true] at hlnk
                  simp only [Except.ok.injEq, Prod.mk.injEq] at h
                  obtain ⟨h1, _⟩ := h
                  subst h1
                  constructor
                  · intro f hf
                    rcases rf_upsert_mem remote_files _ f hf with h1 | h2
                    · exact Or.inl h1
                    · subst h2
                      exact Or.inr ⟨hdir, hlnk⟩
                  · intro hcon
                    rw [hcon] at hlnk
                    exact Bool.noConfusion hlnk

/-- C10 witness: writing a regular-file entry into an empty row set records
exactly one non-directory, non-symlink row. -/
theorem c10_rows_never_dir_or_link_witness :
    save_tree_entry c10Tree [] (fun _ => false) [] 0o100644 "hello.txt" linkSha
      = .ok ([⟨0o100644, "hello.txt", some linkSha⟩], .wroteFile) ∧
    ((∀ f ∈ [(⟨0o100644, "hello.txt", some linkSha⟩ : FileNode)],
        f ∈ ([] : List FileNode) ∨ (S_ISDIR f.mode = false ∧ S_ISLNK f.mode = false)) ∧
     (S_ISLNK 0o100644 = true →
        [(⟨0o100644, "hello.txt", some linkSha⟩ : FileNode)] = [])) :=
  ⟨by decide,
   c10_rows_never_dir_or_link c10Tree [] (fun _ => false) [] 0o100644 "hello.txt"
     linkSha [⟨0o100644, "hello.txt", some linkSha⟩] .wroteFile (by decide)⟩

/-- C10 counterexample: a symlink is NOT rewritten on a later run.  The
scanner records every local symlink with a NULL sha, so when the symlink
already exists the walker's skip comparison dereferences NULL; and when the
path exists as anything with a differing hash, `symlink(2)` on the existing
path fails.  Either way the run aborts instead of rewriting the link. -/
theorem c10_symlink_not_rewritten_counterexample :
    calculate_file_sha true [] = none ∧
    save_tree_entry c10Tree c10Local (fun _ => true) [] 0o120000 "dir/link" linkSha
      = Except.error GError.nullShaCompare ∧
    save_tree_entry c10Tree c10LocalFile (fun _ => true) [] 0o120000 "dir/link" linkSha
      = Except.error GError.symlinkFailed := by decide

end Gitup
